import Mathlib

/-!
Formal model of the WagmiStrategy wallet adapter
(src/strategies/wagmi/src/WagmiStrategy.ts) against the Strategy contract
(src/packages/wallet-kit-core/src/strategy/Strategy.ts).

The adapter is glue code over external libraries (wagmi core, ethers, the
metamask signature utility, the browser provider).  Those libraries are
modelled as oracles passed to each operation; the adapter itself owns two
mutable fields, account and signer, modelled by explicit state passing.
Every operation returns what its promise settles to, the resulting adapter
state where the method mutates it, and the ordered list of observable
external effects it issued.
-/

namespace WagmiKit

/-- An Ethereum address as the adapter stores it: a string. -/
abbrev Address := String

/-- Opaque handle standing for an ethers.Signer capability object. -/
abbrev EthSigner := Nat

/-- Opaque handle standing for an ethers.TransactionRequest. -/
abbrev TransactionRequest := Nat

/-- One wagmi connection; the adapter reads only its ordered account list
(field accounts of the connection object). -/
structure Connection where
  accounts : List Address
  deriving DecidableEq

/-- The wagmi store state as emitted to subscribers: the key of the
currently active connection (field current, a string or undefined) and the
connection map (field connections, a Map from key to connection). -/
structure WagmiState where
  current : Option String
  connections : List (String × Connection)
  deriving DecidableEq

/-- Map.get on the connections map. -/
def connectionsGet (m : List (String × Connection)) (k : String) : Option Connection :=
  (m.find? (fun p => p.1 == k)).map (fun p => p.2)

/-- The projection both store callbacks compute (lines 70 to 74 and 192 to
194 of WagmiStrategy.ts): the first account of the active connection, none
when current is undefined or the empty string (the code tests JS
truthiness), when the map has no entry for it, or when the account list is
empty (accounts[0] is undefined there, turned into null by the
null-coalescing operator). -/
def activeFirstAccount (s : WagmiState) : Option Address :=
  match s.current with
  | none => none
  | some c =>
      if c = "" then none
      else (connectionsGet s.connections c).bind (fun conn => conn.accounts.head?)

/-- The mutable fields the adapter owns: account (string or null) and
signer (ethers.Signer or null). -/
structure Adapter where
  account : Option Address
  signer : Option EthSigner
  deriving DecidableEq

/-- Observable external effects issued by adapter methods, in issue order.
consoleError records a console.error log of a caught failure. -/
inductive ExtCall where
  | wagmiConnect
  | wagmiDisconnect
  | wagmiGetAccount
  | getEthersSigner
  | signerSignMessage (message : String)
  | signerSendTransaction
  | providerSend (method : String)
  | consoleError
  deriving DecidableEq

/-- What the external ethers.Signer object does when called; an error
value is a rejected promise. -/
structure SignerOracle where
  signMessage : EthSigner → String → Except String String
  sendTransaction : EthSigner → TransactionRequest → Except String String

/-- What the external wagmi connect routine and the getEthersSigner helper
resolve to during one connect() call. -/
structure ConnectOracle where
  connectResult : Except String Connection
  getSignerResult : Except String EthSigner

/-- What the external wagmi disconnect routine resolves to. -/
structure DisconnectOracle where
  disconnectResult : Except String Unit

/-- What getAccount(config).addresses holds: undefined (none) or a list. -/
structure AccountOracle where
  addresses : Option (List Address)

/-- Lines 124 to 135: connect.  Inside one try block it awaits the wagmi
connect routine, stores accounts[0] into account, then awaits
getEthersSigner and stores the result into signer; any error from either
await is caught and logged, so the promise always resolves with unit and a
failed signer derivation leaves the already-assigned account in place. -/
def connect (o : ConnectOracle) (st : Adapter) :
    Except String Unit × Adapter × List ExtCall :=
  match o.connectResult with
  | Except.error _ => (Except.ok (), st, [ExtCall.wagmiConnect, ExtCall.consoleError])
  | Except.ok conn =>
    let st1 : Adapter := { st with account := conn.accounts.head? }
    match o.getSignerResult with
    | Except.error _ =>
        (Except.ok (), st1,
          [ExtCall.wagmiConnect, ExtCall.getEthersSigner, ExtCall.consoleError])
    | Except.ok s =>
        (Except.ok (), { st1 with signer := some s },
          [ExtCall.wagmiConnect, ExtCall.getEthersSigner])

/-- Lines 137 to 145: disconnect.  Awaits the wagmi disconnect routine and
only then clears account and signer; both statements sit inside the try
block, so a rejected disconnect skips the clearing, is logged, and the
promise still resolves. -/
def disconnect (o : DisconnectOracle) (st : Adapter) :
    Except String Unit × Adapter × List ExtCall :=
  match o.disconnectResult with
  | Except.error _ => (Except.ok (), st, [ExtCall.wagmiDisconnect, ExtCall.consoleError])
  | Except.ok _ =>
      (Except.ok (), { account := none, signer := none }, [ExtCall.wagmiDisconnect])

/-- Lines 147 to 149: getActiveAddress returns account or the empty string
via the null-coalescing operator; it makes no external call and cannot
reject. -/
def getActiveAddress (st : Adapter) : Except String Address × List ExtCall :=
  (Except.ok (st.account.getD ""), [])

/-- Lines 155 to 158: getAllAddresses reads getAccount(config).addresses
and coalesces undefined to the empty list. -/
def getAllAddresses (o : AccountOracle) : Except String (List Address) × List ExtCall :=
  (Except.ok (o.addresses.getD []), [ExtCall.wagmiGetAccount])

/-- Lines 160 to 165: signMessage throws before any external call when no
signer is cached, else delegates to the signer object. -/
def signMessage (o : SignerOracle) (st : Adapter) (message : String) :
    Except String String × List ExtCall :=
  match st.signer with
  | none => (Except.error "Signer not available", [])
  | some s => (o.signMessage s message, [ExtCall.signerSignMessage message])

/-- Lines 167 to 175: signTransaction throws before any external call when
no signer is cached, else delegates to sendTransaction and returns the
hash of the response. -/
def signTransaction (o : SignerOracle) (st : Adapter) (tx : TransactionRequest) :
    Except String String × List ExtCall :=
  match st.signer with
  | none => (Except.error "Signer not available", [])
  | some s => (o.sendTransaction s tx, [ExtCall.signerSendTransaction])

/-- Lines 252 to 254: dispatch always throws. -/
def dispatch (st : Adapter) : Except String Unit × Adapter × List ExtCall :=
  (Except.error "Method not available on ethereum wallets.", st, [])

set_option linter.unusedVariables false in
/-- Lines 255 to 257: addToken always throws. -/
def addToken (st : Adapter) (address : Address) :
    Except String Unit × Adapter × List ExtCall :=
  (Except.error "Method not available on ethereum wallets", st, [])

/-- Lines 258 to 265: sign always throws. -/
def sign (st : Adapter) : Except String Unit × Adapter × List ExtCall :=
  (Except.error "Method not available on ethereum wallets - use signDataItem instead",
    st, [])

/-- Lines 266 to 268: getWalletNames always throws. -/
def getWalletNames (st : Adapter) : Except String Unit × Adapter × List ExtCall :=
  (Except.error "Method not available on ethereum wallets.", st, [])

/-- JS truthiness of the nullable account string: null, undefined and the
empty string are falsy. -/
def jsTruthy : Option String → Bool
  | none => false
  | some s => s != ""

/-- Lines 65 to 89: the synchronous body of the constructor-installed
subscription callback.  It recomputes the active first account, overwrites
account unconditionally, and then either spawns a fire-and-forget
getEthersSigner derivation (recorded in the call list; its later
resolution is a separate event) when the new account is truthy, or sets
signer to null in the same callback otherwise. -/
def setupListenersCallback (st : Adapter) (current : WagmiState) :
    Adapter × List ExtCall :=
  let st1 : Adapter := { st with account := activeFirstAccount current }
  if jsTruthy st1.account then (st1, [ExtCall.getEthersSigner])
  else ({ st1 with signer := none }, [])

/-- Events interleaved at the adapter between public calls: a store
emission handled by the constructor listener, the later resolution of a
pending fire-and-forget signer derivation (which only assigns signer), or
its rejection (logged, no state change). -/
inductive AdapterEvent where
  | emission (s : WagmiState)
  | signerResolved (sig : EthSigner)
  | signerFailed
  deriving DecidableEq

/-- One adapter state transition per event. -/
def applyEvent (st : Adapter) : AdapterEvent → Adapter
  | AdapterEvent.emission e => (setupListenersCallback st e).1
  | AdapterEvent.signerResolved sig => { st with signer := some sig }
  | AdapterEvent.signerFailed => st

/-- Run a finite event sequence from a starting adapter state. -/
def runEvents (st : Adapter) (es : List AdapterEvent) : Adapter :=
  es.foldl applyEvent st

/-- Whether an event is a store emission. -/
def isEmission : AdapterEvent → Bool
  | AdapterEvent.emission _ => true
  | _ => false

/-- The external wagmi store as a subscription registry: the ids of the
live subscriptions plus the next fresh id.  config.subscribe registers a
callback and returns an unsubscribe closure for the new id; this models
that external contract, which addAddressEvent wraps. -/
structure SubStore where
  subs : List Nat
  nextId : Nat
  deriving DecidableEq

/-- The external config.subscribe: register a fresh subscription, return
its id. -/
def storeSubscribe (st : SubStore) : SubStore × Nat :=
  ({ subs := st.subs ++ [st.nextId], nextId := st.nextId + 1 }, st.nextId)

/-- The external unsubscribe closure for subscription i. -/
def storeUnsubscribe (st : SubStore) (i : Nat) : SubStore :=
  { st with subs := st.subs.filter (fun j => j != i) }

/-- Lines 190 to 197: the callback addAddressEvent registers.  It invokes
the listener only when the emission has a truthy current key whose
connection yields a truthy first account; the result lists the listener
invocations this one emission causes, in order. -/
def addAddressEventCallback {α : Type} (listener : Address → α)
    (current : WagmiState) : List α :=
  match activeFirstAccount current with
  | some a => if a = "" then [] else [listener a]
  | none => []

/-- Lines 186 to 203: addAddressEvent subscribes a second, independent
callback on the store and returns a closure that, when applied, runs the
unsubscribe handle for that new subscription. -/
def addAddressEvent (store : SubStore) : SubStore × (SubStore → SubStore) :=
  let p := storeSubscribe store
  (p.1, fun s => storeUnsubscribe s p.2)

/-- A DOM CustomEvent as the adapter builds one: new CustomEvent(type)
with no init dictionary, so the account string (or empty string) becomes
the event type and detail stays null. -/
structure WKCustomEvent where
  eventType : String
  detail : Option Address
  deriving DecidableEq

/-- Lines 205 to 209: removeAddressEvent synchronously invokes the passed
listener with new CustomEvent(this.account or empty string) and touches no
subscription; the result pairs the listener invocations with the
unchanged subscription store. -/
def removeAddressEvent {α : Type} (listener : WKCustomEvent → α) (st : Adapter)
    (store : SubStore) : List α × SubStore :=
  ([listener { eventType := st.account.getD "", detail := none }], store)

/-- Lowercase hex digit, as Number.toString(16) produces. -/
def hexDigitChar (n : Nat) : Char :=
  if n < 10 then Char.ofNat (48 + n) else Char.ofNat (87 + n)

/-- Digit loop of Number.toString(16), fuel-guarded (fuel n suffices). -/
def natToHexGo : Nat → Nat → List Char → List Char
  | 0, _, acc => acc
  | fuel + 1, n, acc =>
      if n = 0 then acc
      else natToHexGo fuel (n / 16) (hexDigitChar (n % 16) :: acc)

/-- Number.toString(16) for a nonnegative integer. -/
def natToHex (n : Nat) : String :=
  if n = 0 then "0" else String.mk (natToHexGo n n [])

/-- String.prototype.padStart(2, "0"). -/
def padStart2 (s : String) : String :=
  if s.length < 2 then String.mk (List.replicate (2 - s.length) '0') ++ s else s

/-- byte.toString(16).padStart(2, "0") from the decrypt hex framing. -/
def byteToHex (b : Nat) : String := padStart2 (natToHex b)

/-- Array.from(bytes).map(byteToHex).join("") (lines 230 to 232). -/
def bytesToHex (bs : List Nat) : String := String.join (bs.map byteToHex)

/-- UTF-8 encoding of one Unicode scalar value. -/
def utf8EncodeChar (c : Nat) : List Nat :=
  if c < 0x80 then [c]
  else if c < 0x800 then [0xC0 + c / 0x40, 0x80 + c % 0x40]
  else if c < 0x10000 then
    [0xE0 + c / 0x1000, 0x80 + c / 0x40 % 0x40, 0x80 + c % 0x40]
  else
    [0xF0 + c / 0x40000, 0x80 + c / 0x1000 % 0x40, 0x80 + c / 0x40 % 0x40,
      0x80 + c % 0x40]

/-- TextEncoder().encode: UTF-8 bytes of a string. -/
def utf8Encode (s : String) : List Nat :=
  (s.data.map (fun ch => utf8EncodeChar ch.toNat)).flatten

/-- U+FFFD, what TextDecoder substitutes for malformed input. -/
def replacementChar : Char := Char.ofNat 0xFFFD

/-- Is b a UTF-8 continuation byte. -/
def isCont (b : Nat) : Bool := 0x80 ≤ b && b < 0xC0

/-- Valid second byte for a three-byte lead b (excludes overlong forms and
surrogates, per the WHATWG decoder). -/
def cont3Ok (b b1 : Nat) : Bool :=
  if b = 0xE0 then 0xA0 ≤ b1 && b1 < 0xC0
  else if b = 0xED then 0x80 ≤ b1 && b1 < 0xA0
  else isCont b1

/-- Valid second byte for a four-byte lead b (excludes overlong forms and
values above U+10FFFF, per the WHATWG decoder). -/
def cont4Ok (b b1 : Nat) : Bool :=
  if b = 0xF0 then 0x90 ≤ b1 && b1 < 0xC0
  else if b = 0xF4 then 0x80 ≤ b1 && b1 < 0x90
  else isCont b1

/-- Fuel-guarded WHATWG UTF-8 decoder with replacement: each step consumes
at least one byte, so fuel equal to the length suffices.  On malformed
input it emits U+FFFD for the consumed maximal subpart and resumes at the
first unconsumed byte; the claims only evaluate it on valid sequences and
on an invalid lead byte, where this agrees with TextDecoder exactly. -/
def utf8DecodeGo : Nat → List Nat → List Char
  | 0, _ => []
  | _ + 1, [] => []
  | fuel + 1, b :: rest =>
    if b < 0x80 then Char.ofNat b :: utf8DecodeGo fuel rest
    else if b < 0xC2 then replacementChar :: utf8DecodeGo fuel rest
    else if b < 0xE0 then
      match rest with
      | [] => [replacementChar]
      | b1 :: rest1 =>
        if isCont b1 then
          Char.ofNat ((b - 0xC0) * 0x40 + (b1 - 0x80)) :: utf8DecodeGo fuel rest1
        else replacementChar :: utf8DecodeGo fuel rest
    else if b < 0xF0 then
      match rest with
      | [] => [replacementChar]
      | [b1] =>
        if cont3Ok b b1 then [replacementChar]
        else replacementChar :: utf8DecodeGo fuel [b1]
      | b1 :: b2 :: rest2 =>
        if cont3Ok b b1 then
          if isCont b2 then
            Char.ofNat ((b - 0xE0) * 0x1000 + (b1 - 0x80) * 0x40 + (b2 - 0x80)) ::
              utf8DecodeGo fuel rest2
          else replacementChar :: utf8DecodeGo fuel (b2 :: rest2)
        else replacementChar :: utf8DecodeGo fuel rest
    else if b < 0xF5 then
      match rest with
      | [] => [replacementChar]
      | [b1] =>
        if cont4Ok b b1 then [replacementChar]
        else replacementChar :: utf8DecodeGo fuel [b1]
      | [b1, b2] =>
        if cont4Ok b b1 then
          if isCont b2 then [replacementChar]
          else replacementChar :: utf8DecodeGo fuel [b2]
        else replacementChar :: utf8DecodeGo fuel [b1, b2]
      | b1 :: b2 :: b3 :: rest3 =>
        if cont4Ok b b1 then
          if isCont b2 then
            if isCont b3 then
              Char.ofNat ((b - 0xF0) * 0x40000 + (b1 - 0x80) * 0x1000 +
                  (b2 - 0x80) * 0x40 + (b3 - 0x80)) :: utf8DecodeGo fuel rest3
            else replacementChar :: utf8DecodeGo fuel (b3 :: rest3)
          else replacementChar :: utf8DecodeGo fuel (b2 :: b3 :: rest3)
        else replacementChar :: utf8DecodeGo fuel rest
    else replacementChar :: utf8DecodeGo fuel rest

/-- TextDecoder().decode on a byte list. -/
def textDecode (bs : List Nat) : String := String.mk (utf8DecodeGo bs.length bs)

/-- What the external getEthersSigner and the provider JSON-RPC calls
resolve to during encrypt and decrypt. -/
structure ProviderOracle where
  getSignerResult : Except String EthSigner
  getEncryptionPublicKey : Option Address → Except String String
  ethDecrypt : String → Address → Except String (List Nat)

/-- Lines 211 to 223: encrypt.  No try block, so a rejected external call
propagates.  It fetches a signer, asks the provider for the encryption
public key of this.account, decodes the input bytes to a string, applies
the external metamask encrypt routine (passed in as mmEncrypt, producing
an opaque blob), and returns the UTF-8 bytes of JSON.stringify of the
blob (jsonStringify is the external JSON serializer). -/
def encrypt {Blob : Type} (mmEncrypt : String → String → Blob)
    (jsonStringify : Blob → String) (o : ProviderOracle) (st : Adapter)
    (data : List Nat) : Except String (List Nat) × List ExtCall :=
  match o.getSignerResult with
  | Except.error e => (Except.error e, [ExtCall.getEthersSigner])
  | Except.ok _ =>
    match o.getEncryptionPublicKey st.account with
    | Except.error e =>
        (Except.error e,
          [ExtCall.getEthersSigner, ExtCall.providerSend "eth_getEncryptionPublicKey"])
    | Except.ok publicKey =>
      let stringData := textDecode data
      (Except.ok (utf8Encode (jsonStringify (mmEncrypt stringData publicKey))),
        [ExtCall.getEthersSigner, ExtCall.providerSend "eth_getEncryptionPublicKey"])

/-- Lines 224 to 234: decrypt.  It fetches a signer, reads the active
address (account coalesced to the empty string), re-encodes the decoded
input to bytes and frames them as a 0x hex string byte by byte, and
returns whatever the eth_decrypt provider call resolves to. -/
def decrypt (o : ProviderOracle) (st : Adapter) (data : List Nat) :
    Except String (List Nat) × List ExtCall :=
  match o.getSignerResult with
  | Except.error e => (Except.error e, [ExtCall.getEthersSigner])
  | Except.ok _ =>
    let address := st.account.getD ""
    let hexData := "0x" ++ bytesToHex (utf8Encode (textDecode data))
    (o.ethDecrypt hexData address,
      [ExtCall.getEthersSigner, ExtCall.providerSend "eth_decrypt"])

/-- The payload of a resolved byte promise, empty list when rejected. -/
def exceptBytes : Except String (List Nat) → List Nat
  | Except.ok v => v
  | Except.error _ => []

/-- Claim C3: whenever signer is null, signMessage and signTransaction
each fail immediately with the error "Signer not available" and issue no
external signer or provider call. -/
theorem signing_fails_fast_without_signer (o : SignerOracle) (st : Adapter)
    (m : String) (tx : TransactionRequest) (h : st.signer = none) :
    signMessage o st m = (Except.error "Signer not available", [])
    ∧ signTransaction o st tx = (Except.error "Signer not available", []) := by
  simp [signMessage, signTransaction, h]

/-- Witness for C3 at the disconnected adapter and a concrete message. -/
theorem signing_fails_fast_without_signer_witness :
    (Adapter.mk none none).signer = none
    ∧ signMessage ⟨fun _ _ => Except.error "e", fun _ _ => Except.error "e"⟩
        ⟨none, none⟩ "m" = (Except.error "Signer not available", []) :=
  ⟨rfl,
    (signing_fails_fast_without_signer
      ⟨fun _ _ => Except.error "e", fun _ _ => Except.error "e"⟩ ⟨none, none⟩
      "m" 0 rfl).1⟩

/-- Claim C4: when the external connect routine rejects, connect catches
and logs the error, its own promise resolves, and account and signer are
exactly what they were before the call. -/
theorem connect_swallows_errors (o : ConnectOracle) (st : Adapter) (e : String)
    (h : o.connectResult = Except.error e) :
    (connect o st).1 = Except.ok () ∧ (connect o st).2.1 = st
    ∧ ExtCall.consoleError ∈ (connect o st).2.2 := by
  refine ⟨?_, ?_, ?_⟩ <;> simp [connect, h]

/-- Witness for C4 at a concrete rejecting oracle and a connected state. -/
theorem connect_swallows_errors_witness :
    (ConnectOracle.mk (Except.error "user rejected") (Except.error "x")).connectResult
      = Except.error "user rejected"
    ∧ (connect ⟨Except.error "user rejected", Except.error "x"⟩
        ⟨some "0xdef", some 3⟩).2.1 = ⟨some "0xdef", some 3⟩ :=
  ⟨rfl,
    (connect_swallows_errors ⟨Except.error "user rejected", Except.error "x"⟩
      ⟨some "0xdef", some 3⟩ "user rejected" rfl).2.1⟩

/-- Claim C5: in every adapter state, dispatch, addToken, sign and
getWalletNames fail immediately with their explicit unsupported-capability
error, leave the state untouched and perform no external call. -/
theorem unsupported_methods_always_throw (st : Adapter) (addr : Address) :
    dispatch st = (Except.error "Method not available on ethereum wallets.", st, [])
    ∧ addToken st addr
        = (Except.error "Method not available on ethereum wallets", st, [])
    ∧ sign st
        = (Except.error
            "Method not available on ethereum wallets - use signDataItem instead",
          st, [])
    ∧ getWalletNames st
        = (Except.error "Method not available on ethereum wallets.", st, []) :=
  ⟨rfl, rfl, rfl, rfl⟩

/-- Claim C9: removeAddressEvent never detaches anything; it invokes the
passed listener exactly once, synchronously, with a synthetic CustomEvent
whose type is the current account or the empty string, and leaves the
subscription store intact. -/
theorem removeAddressEvent_invokes_listener_without_detaching {α : Type}
    (listener : WKCustomEvent → α) (st : Adapter) (store : SubStore) :
    (removeAddressEvent listener st store).1
      = [listener { eventType := st.account.getD "", detail := none }]
    ∧ (removeAddressEvent listener st store).1.length = 1
    ∧ (removeAddressEvent listener st store).2 = store :=
  ⟨rfl, rfl, rfl⟩

/-- Claim C10: with no account, getActiveAddress resolves to the empty
string, and getAllAddresses resolves to the empty list whenever the
connector reports no addresses; neither can reject. -/
theorem identity_queries_never_reject (st : Adapter) (o : AccountOracle)
    (h1 : st.account = none) (h2 : o.addresses.getD [] = []) :
    getActiveAddress st = (Except.ok "", [])
    ∧ getAllAddresses o = (Except.ok [], [ExtCall.wagmiGetAccount]) := by
  simp [getActiveAddress, getAllAddresses, h1, h2]

/-- Witness for C10 at the disconnected adapter and an undefined address
list. -/
theorem identity_queries_never_reject_witness :
    (Adapter.mk none none).account = none
    ∧ getActiveAddress ⟨none, none⟩ = (Except.ok "", []) :=
  ⟨rfl, (identity_queries_never_reject ⟨none, none⟩ ⟨none⟩ rfl rfl).1⟩

/-- Counterexample to claim C1 as stated: the external connect routine
resolves with one account but the awaited signer derivation rejects; the
error is swallowed, account is assigned, and signer is still null when
connect returns. -/
theorem connect_success_null_signer_counterexample :
    (connect ⟨Except.ok ⟨["0xabc"]⟩, Except.error "derivation failed"⟩
        ⟨none, none⟩).2.1.account = some "0xabc"
    ∧ (connect ⟨Except.ok ⟨["0xabc"]⟩, Except.error "derivation failed"⟩
        ⟨none, none⟩).2.1.signer = none :=
  ⟨rfl, rfl⟩

/-- Claim C1 as amended: when the external connect routine resolves with
at least one account and the awaited signer derivation also resolves,
connect resolves with account set to the first returned address and
signer set to the derived signer, with no asynchronous gap. -/
theorem connect_success_sets_account_and_signer (o : ConnectOracle) (st : Adapter)
    (conn : Connection) (a : Address) (rest : List Address) (s : EthSigner)
    (hc : o.connectResult = Except.ok conn) (ha : conn.accounts = a :: rest)
    (hs : o.getSignerResult = Except.ok s) :
    (connect o st).1 = Except.ok ()
    ∧ (connect o st).2.1.account = some a
    ∧ (connect o st).2.1.signer = some s := by
  refine ⟨?_, ?_, ?_⟩ <;> simp [connect, hc, ha, hs]

/-- Witness for amended C1 at a concrete succeeding oracle. -/
theorem connect_success_sets_account_and_signer_witness :
    (ConnectOracle.mk (Except.ok ⟨["0xabc"]⟩) (Except.ok 7)).connectResult
      = Except.ok ⟨["0xabc"]⟩
    ∧ (connect ⟨Except.ok ⟨["0xabc"]⟩, Except.ok 7⟩ ⟨none, none⟩).2.1.account
        = some "0xabc"
    ∧ (connect ⟨Except.ok ⟨["0xabc"]⟩, Except.ok 7⟩ ⟨none, none⟩).2.1.signer
        = some 7 :=
  ⟨rfl,
    (connect_success_sets_account_and_signer ⟨Except.ok ⟨["0xabc"]⟩, Except.ok 7⟩
      ⟨none, none⟩ ⟨["0xabc"]⟩ "0xabc" [] 7 rfl rfl rfl).2.1,
    (connect_success_sets_account_and_signer ⟨Except.ok ⟨["0xabc"]⟩, Except.ok 7⟩
      ⟨none, none⟩ ⟨["0xabc"]⟩ "0xabc" [] 7 rfl rfl rfl).2.2⟩

/-- Counterexample to claim C2 as stated: when the external disconnect
routine rejects, the clearing statements inside the try block are skipped,
so account and signer keep their prior non-null values and an immediate
signMessage succeeds instead of failing with "Signer not available". -/
theorem disconnect_failure_keeps_state_counterexample :
    (disconnect ⟨Except.error "rpc failure"⟩ ⟨some "0xabc", some 5⟩).2.1.account
      = some "0xabc"
    ∧ (disconnect ⟨Except.error "rpc failure"⟩ ⟨some "0xabc", some 5⟩).2.1.signer
        = some 5
    ∧ signMessage ⟨fun _ m => Except.ok m, fun _ _ => Except.error "e"⟩
        (disconnect ⟨Except.error "rpc failure"⟩ ⟨some "0xabc", some 5⟩).2.1 "hello"
        = (Except.ok "hello", [ExtCall.signerSignMessage "hello"]) :=
  ⟨rfl, rfl, rfl⟩

/-- Claim C2 as amended: disconnect never propagates an error; when the
external disconnect resolves, account and signer are both cleared and an
immediate signMessage fails with "Signer not available"; when it rejects,
the failure is logged and account and signer keep their prior values. -/
theorem disconnect_clears_only_on_success (o1 o2 : DisconnectOracle)
    (st1 st2 : Adapter) (sg : SignerOracle) (m e : String)
    (h1 : o1.disconnectResult = Except.ok ())
    (h2 : o2.disconnectResult = Except.error e) :
    (disconnect o1 st1).1 = Except.ok ()
    ∧ (disconnect o1 st1).2.1 = { account := none, signer := none }
    ∧ signMessage sg (disconnect o1 st1).2.1 m
        = (Except.error "Signer not available", [])
    ∧ (disconnect o2 st2).1 = Except.ok ()
    ∧ (disconnect o2 st2).2.1 = st2
    ∧ ExtCall.consoleError ∈ (disconnect o2 st2).2.2 := by
  refine ⟨?_, ?_, ?_, ?_, ?_, ?_⟩ <;> simp [disconnect, signMessage, h1, h2]

/-- Witness for amended C2 at concrete resolving and rejecting oracles. -/
theorem disconnect_clears_only_on_success_witness :
    (DisconnectOracle.mk (Except.ok ())).disconnectResult = Except.ok ()
    ∧ (disconnect ⟨Except.ok ()⟩ ⟨some "0xabc", some 5⟩).2.1
        = { account := none, signer := none }
    ∧ (disconnect ⟨Except.error "rpc"⟩ ⟨some "0xdef", some 9⟩).2.1
        = ⟨some "0xdef", some 9⟩ :=
  ⟨rfl,
    (disconnect_clears_only_on_success ⟨Except.ok ()⟩ ⟨Except.error "rpc"⟩
      ⟨some "0xabc", some 5⟩ ⟨some "0xdef", some 9⟩
      ⟨fun _ _ => Except.error "e", fun _ _ => Except.error "e"⟩
      "m" "rpc" rfl rfl).2.1,
    (disconnect_clears_only_on_success ⟨Except.ok ()⟩ ⟨Except.error "rpc"⟩
      ⟨some "0xabc", some 5⟩ ⟨some "0xdef", some 9⟩
      ⟨fun _ _ => Except.error "e", fun _ _ => Except.error "e"⟩
      "m" "rpc" rfl rfl).2.2.2.2.1⟩

/-- The listener callback overwrites account with the projection of the
emission it handles, in both of its branches. -/
theorem setupListenersCallback_account (st : Adapter) (e : WagmiState) :
    (setupListenersCallback st e).1.account = activeFirstAccount e := by
  unfold setupListenersCallback
  dsimp only
  split <;> rfl

/-- Events that are not emissions never touch account. -/
theorem runEvents_account_of_no_emission (r : List AdapterEvent) :
    ∀ st : Adapter, r.all (fun ev => !isEmission ev) = true →
      (runEvents st r).account = st.account := by
  induction r with
  | nil => intro st _; rfl
  | cons ev r ih =>
      intro st h
      simp only [List.all_cons, Bool.and_eq_true] at h
      cases ev with
      | emission e => simp [isEmission] at h
      | signerResolved sig =>
          simpa [runEvents, applyEvent] using ih { st with signer := some sig } h.2
      | signerFailed => simpa [runEvents, applyEvent] using ih st h.2

/-- Claim C6: over any finite event sequence, after the most recent store
emission (possibly followed by pending signer resolutions or rejections,
which do not touch account), account equals the first account of the
active connection of that emission, or null when it has none; and an
emission whose projection is null sets signer to null synchronously inside
the same callback. -/
theorem account_reflects_latest_emission (st : Adapter) (l r : List AdapterEvent)
    (e : WagmiState) (hr : r.all (fun ev => !isEmission ev) = true) :
    (runEvents st (l ++ AdapterEvent.emission e :: r)).account
      = activeFirstAccount e
    ∧ ∀ st2 : Adapter, activeFirstAccount e = none →
        (applyEvent st2 (AdapterEvent.emission e)).signer = none := by
  constructor
  · have hsplit : runEvents st (l ++ AdapterEvent.emission e :: r)
        = runEvents (applyEvent (runEvents st l) (AdapterEvent.emission e)) r := by
      simp [runEvents, List.foldl_append]
    rw [hsplit, runEvents_account_of_no_emission r _ hr]
    exact setupListenersCallback_account _ e
  · intro st2 hnone
    simp [applyEvent, setupListenersCallback, hnone, jsTruthy]

/-- Witness for C6: an earlier emission, the tracked emission, then a
rejected pending derivation. -/
theorem account_reflects_latest_emission_witness :
    ([AdapterEvent.signerFailed].all (fun ev => !isEmission ev) = true)
    ∧ (runEvents ⟨none, none⟩
        ([AdapterEvent.emission ⟨none, []⟩] ++
          AdapterEvent.emission ⟨some "c", [("c", ⟨["0xabc"]⟩)]⟩ ::
            [AdapterEvent.signerFailed])).account
      = activeFirstAccount ⟨some "c", [("c", ⟨["0xabc"]⟩)]⟩ :=
  ⟨by decide,
    (account_reflects_latest_emission ⟨none, none⟩ [AdapterEvent.emission ⟨none, []⟩]
      [AdapterEvent.signerFailed] ⟨some "c", [("c", ⟨["0xabc"]⟩)]⟩ (by decide)).1⟩

/-- Claim C8: the callback registered by addAddressEvent invokes the
listener exactly once with the first account of an emission whose active
connection carries one (addresses from the connector are 0x-prefixed and
hence nonempty, which the hypothesis on a records), invokes nothing on an
emission with no active account, and the returned closure detaches exactly
the subscription addAddressEvent opened. -/
theorem addAddressEvent_filters_and_detaches {α : Type} (listener : Address → α)
    (e1 e2 : WagmiState) (a : Address) (store : SubStore)
    (h1 : activeFirstAccount e1 = some a) (ha : a ≠ "")
    (h2 : activeFirstAccount e2 = none)
    (h3 : store.nextId ∉ store.subs) :
    addAddressEventCallback listener e1 = [listener a]
    ∧ addAddressEventCallback listener e2 = []
    ∧ ((addAddressEvent store).2 (addAddressEvent store).1).subs = store.subs := by
  refine ⟨?_, ?_, ?_⟩
  · simp [addAddressEventCallback, h1, ha]
  · simp [addAddressEventCallback, h2]
  · have hself : store.subs.filter (fun j => j != store.nextId) = store.subs := by
      apply List.filter_eq_self.mpr
      intro b hb
      simp only [bne_iff_ne, ne_eq, decide_eq_true_eq]
      exact fun hbn => h3 (hbn ▸ hb)
    simp [addAddressEvent, storeSubscribe, storeUnsubscribe, List.filter_append, hself]

/-- Witness for C8 at concrete emissions and a concrete store. -/
theorem addAddressEvent_filters_and_detaches_witness :
    activeFirstAccount ⟨some "c", [("c", ⟨["0xabc"]⟩)]⟩ = some "0xabc"
    ∧ addAddressEventCallback (fun x : Address => x)
        ⟨some "c", [("c", ⟨["0xabc"]⟩)]⟩ = ["0xabc"]
    ∧ ((addAddressEvent ⟨[5], 7⟩).2 (addAddressEvent ⟨[5], 7⟩).1).subs = [5] := by
  have h := addAddressEvent_filters_and_detaches (fun x : Address => x)
    ⟨some "c", [("c", ⟨["0xabc"]⟩)]⟩ ⟨none, []⟩ "0xabc" ⟨[5], 7⟩
    (by decide) (by decide) (by decide) (by decide)
  exact ⟨by decide, h.1, h.2.2⟩

/-- Counterexample to claim C7 as stated, for every mocked provider at
once: the input bytes are decoded to a string before the provider or the
encryption scheme ever see them, so the two distinct byte sequences 0xFF
and EF BF BD (both decode to U+FFFD) make encrypt produce identical
ciphertext bytes, and no single decrypt implementation can return both
originals; moreover, under the mock whose eth_decrypt inverts the
encryption scheme of the U+FFFD plaintext, the round trip of 0xFF returns
EF BF BD, not 0xFF. -/
theorem encrypt_decrypt_roundtrip_counterexample :
    (encrypt (fun s pk => s ++ pk) (fun b => b)
        ⟨Except.ok 0, fun _ => Except.ok "PK", fun _ _ => Except.ok [239, 191, 189]⟩
        ⟨some "0xabc", none⟩ [255]).1
      = (encrypt (fun s pk => s ++ pk) (fun b => b)
          ⟨Except.ok 0, fun _ => Except.ok "PK", fun _ _ => Except.ok [239, 191, 189]⟩
          ⟨some "0xabc", none⟩ [239, 191, 189]).1
    ∧ ([255] : List Nat) ≠ [239, 191, 189]
    ∧ (decrypt
        ⟨Except.ok 0, fun _ => Except.ok "PK", fun _ _ => Except.ok [239, 191, 189]⟩
        ⟨some "0xabc", none⟩
        (exceptBytes (encrypt (fun s pk => s ++ pk) (fun b => b)
          ⟨Except.ok 0, fun _ => Except.ok "PK", fun _ _ => Except.ok [239, 191, 189]⟩
          ⟨some "0xabc", none⟩ [255]).1)).1
      = Except.ok [239, 191, 189] :=
  ⟨rfl, by decide, rfl⟩

/-- Claim C7 as amended: the encrypt and decrypt round trip restores the
original byte sequence given a mocked provider whose two RPC methods are
mutually consistent, provided additionally that the input bytes survive
the TextDecoder and TextEncoder round trip (valid UTF-8); the JSON
ciphertext string always does, which hjson records for the concrete
serializer in use. -/
theorem encrypt_decrypt_roundtrip {Blob : Type}
    (mmEncrypt : String → String → Blob) (jsonStringify : Blob → String)
    (o : ProviderOracle) (a : Address) (sg : Option EthSigner) (s : EthSigner)
    (pk : String) (data : List Nat)
    (hs : o.getSignerResult = Except.ok s)
    (hpk : o.getEncryptionPublicKey (some a) = Except.ok pk)
    (hdata : utf8Encode (textDecode data) = data)
    (hjson : utf8Encode (textDecode (utf8Encode
        (jsonStringify (mmEncrypt (textDecode data) pk))))
      = utf8Encode (jsonStringify (mmEncrypt (textDecode data) pk)))
    (hdec : o.ethDecrypt
        ("0x" ++ bytesToHex (utf8Encode (jsonStringify (mmEncrypt (textDecode data) pk))))
        a
      = Except.ok (utf8Encode (textDecode data))) :
    ∃ enc, (encrypt mmEncrypt jsonStringify o ⟨some a, sg⟩ data).1 = Except.ok enc
      ∧ (decrypt o ⟨some a, sg⟩ enc).1 = Except.ok data := by
  refine ⟨utf8Encode (jsonStringify (mmEncrypt (textDecode data) pk)), ?_, ?_⟩
  · simp [encrypt, hs, hpk]
  · simp [decrypt, hs, hjson, hdec, hdata]

/-- Witness for amended C7: the bytes of "hi" through a concrete
consistent mock. -/
theorem encrypt_decrypt_roundtrip_witness :
    utf8Encode (textDecode [104, 105]) = [104, 105]
    ∧ ∃ enc,
        (encrypt (fun s pk => s ++ pk) (fun b => b)
            ⟨Except.ok 0, fun _ => Except.ok "PK", fun _ _ => Except.ok [104, 105]⟩
            ⟨some "0xabc", none⟩ [104, 105]).1 = Except.ok enc
        ∧ (decrypt
            ⟨Except.ok 0, fun _ => Except.ok "PK", fun _ _ => Except.ok [104, 105]⟩
            ⟨some "0xabc", none⟩ enc).1 = Except.ok [104, 105] :=
  ⟨by decide,
    encrypt_decrypt_roundtrip (fun s pk => s ++ pk) (fun b => b)
      ⟨Except.ok 0, fun _ => Except.ok "PK", fun _ _ => Except.ok [104, 105]⟩
      "0xabc" none 0 "PK" [104, 105] rfl rfl (by decide) (by decide) rfl⟩

end WagmiKit
